import Mathlib

/-!
Shallow embedding of the packet transport layer of this InstrumentKit fork.

Embedded code:
  * src/instruments/thorlabs/_abstract.py — class ThorLabsInstrument with
    sendpacket, readpacket and querypacket (the correlation engine);
  * src/python/src/instruments/abstract_instruments/serialManager.py — the
    process-wide serial-connection registry newSerialConnection.

Modelling conventions:
  * Durations and wall-clock values are rationals measured in seconds, so the
    unit conversion assume_units(timeout, second).rescale(second).magnitude on
    a truthy timeout is the identity and the conversion line is a no-op here.
  * The byte channel follows the contract stated in the spec: read_raw returns
    either the empty sentinel or one complete frame, and decoding a complete
    frame (ThorLabsPacket.unpack, whose module _packets is not among the
    sources under review) is deterministic, so a read together with the decode
    step is modelled as an abstract ReadResult.  In particular read_raw never
    returns Python None, which makes the two branches of readpacket guarded by
    resp-is-None unreachable; they are still represented as outcomes of the
    embedded function (retNone, ioErrGotNothing) so that claims about them can
    be stated.
  * Each loop iteration of readpacket consumes one TimedRead: the read result
    paired with the wall-clock value observed when that read completes, which
    is exactly the value the statement tic = time.time() sees in iterations
    that reach the deadline check.
  * Python-3 semantics is used for the comparison tic - t_start > timeout when
    timeout is None: comparing a float with None raises TypeError.  (Under
    Python 2 the comparison would instead succeed and the TimeoutError branch
    would fire; either way the call raises rather than returning.)
-/

namespace ThorLabs

/-- A decoded ThorLabs APT packet.  Modelled from the spec: the packet codec
(class ThorLabsPacket of module _packets) is not among the sources under
review; per the spec a packet carries a message id, two inline parameters,
destination and source address bytes, and an optional variable-length
payload.  Only message_id is inspected by the correlation engine. -/
structure Packet where
  message_id : String
  param1 : Nat
  param2 : Nat
  dest : Nat
  source : Nat
  payload : Option (List Nat)
deriving DecidableEq

/-- Result of one read_raw call with the decode step fused in: the channel
yields either the empty sentinel or one complete, decodable frame. -/
inductive ReadResult
  | empty
  | frame (pkt : Packet)
deriving DecidableEq

/-- One loop iteration's input: the read result, and the wall-clock value (in
seconds) observed right after the read completes.  For iterations that reach
the deadline check this is the value assigned to tic; iterations that break
out of the loop never consult the clock and leave the field unused. -/
structure TimedRead where
  res : ReadResult
  tic : Rat
deriving DecidableEq

/-- The pending-message queue self._packet_queue, a defaultdict(list),
recorded as the ordered list of (message id, packet) append events. -/
abbrev MsgQueue := List (String × Packet)

/-- The packets stored in the queue under a given message id, in arrival
order: the content of self._packet_queue[id]. -/
def queueLookup (q : MsgQueue) (id : String) : List Packet :=
  (q.filter (fun e => e.1 == id)).map (fun e => e.2)

/-- The timeout argument of readpacket after the unit-conversion line:
Python None, Python False, or a number of seconds. -/
inductive PyTimeout
  | pyNone
  | pyFalse
  | secs (d : Rat)
deriving DecidableEq

/-- The Python test timeout == False: False == False and 0 == False are
True; None == False is False, and a nonzero number == False is False. -/
def pyEqFalse : PyTimeout → Bool
  | .pyNone => false
  | .pyFalse => true
  | .secs d => decide (d = 0)

/-- Outcome of the deadline check at the bottom of the loop body:

    if not (timeout == False):
        if tic - t_start > timeout:
            raise TimeoutError(...)

When timeout is None the guard is entered and the comparison of a float with
None raises TypeError (Python 3). -/
inductive DeadlineStep
  | goOn
  | raiseTimeout
  | raiseTypeErr
deriving DecidableEq

/-- The two deadline-check lines of readpacket. -/
def deadlineCheck (timeout : PyTimeout) (t_start tic : Rat) : DeadlineStep :=
  if pyEqFalse timeout then .goOn
  else
    match timeout with
    | .pyNone => .raiseTypeErr
    | .pyFalse => .goOn
    | .secs d => if tic - t_start > d then .raiseTimeout else .goOn

/-- How the while-True loop of readpacket ends: break with a decoded packet,
TimeoutError raised, TypeError raised (deadline check against None), or the
supplied list of reads exhausted (the loop is still running). -/
inductive LoopExit
  | broke (pkt : Packet)
  | timeoutRaised (last_id : String)
  | typeErrRaised
  | fuelOut
deriving DecidableEq

/-- The while-True loop of readpacket, consuming one TimedRead per iteration.
In the non-empty branch resp is a non-empty byte string, never Python None,
so the first break (guarded by resp is None) is dead code and the break is
taken exactly when timeout is None or the decoded id equals expect; otherwise
the packet is appended to the queue under its own id before the deadline
check runs.  In the empty branch resp_id is the string literal used by the
error message. -/
def readLoop (expect : Option String) (timeout : PyTimeout) (t_start : Rat) :
    List TimedRead → MsgQueue → LoopExit × MsgQueue
  | [], q => (.fuelOut, q)
  | r :: rest, q =>
    match r.res with
    | .frame pkt =>
      if timeout = .pyNone ∨ expect = some pkt.message_id then
        (.broke pkt, q)
      else
        match deadlineCheck timeout t_start r.tic with
        | .goOn => readLoop expect timeout t_start rest (q ++ [(pkt.message_id, pkt)])
        | .raiseTimeout => (.timeoutRaised pkt.message_id, q ++ [(pkt.message_id, pkt)])
        | .raiseTypeErr => (.typeErrRaised, q ++ [(pkt.message_id, pkt)])
    | .empty =>
      match deadlineCheck timeout t_start r.tic with
      | .goOn => readLoop expect timeout t_start rest q
      | .raiseTimeout => (.timeoutRaised "empty", q)
      | .raiseTypeErr => (.typeErrRaised, q)

/-- Observable outcome of a readpacket call: the returned packet, the
returned no-packet sentinel None, TimeoutError (carrying the last-seen id and
the expected id of its message), the two IOError branches, TypeError, or
divergence (the call has not ended after consuming every supplied read). -/
inductive RPOutcome
  | retPacket (pkt : Packet)
  | retNone
  | timeoutErr (last_id : String) (expected : Option String)
  | ioErrGotNothing (expected : String)
  | ioErrMismatch (got : String) (expected : String)
  | typeErr
  | diverge
deriving DecidableEq

/-- The ThorLabsInstrument state the claims observe: the log of byte strings
written to the channel through self._file.write_raw, and the pending-message
queue self._packet_queue (initialised empty by the constructor). -/
structure ThorLabsInstrument where
  written : List (List Nat)
  packet_queue : MsgQueue
deriving DecidableEq

/-- Modelled from the spec: ThorLabsPacket.pack of module _packets is not
among the sources under review.  Per the spec the frame is the message-id
field, then either the two inline parameter bytes or the little-endian
payload length, then the destination and source bytes, then the payload; the
character codes of the id stand in for the two-byte id field. -/
def pack (p : Packet) : List Nat :=
  (p.message_id.toList.map Char.toNat)
    ++ (match p.payload with
        | none => [p.param1, p.param2]
        | some pl => [pl.length % 256, pl.length / 256 % 256])
    ++ [p.dest, p.source]
    ++ (match p.payload with
        | none => []
        | some pl => pl)

/-- sendpacket(self, packet): self._file.write_raw(packet.pack()). -/
def sendpacket (inst : ThorLabsInstrument) (packet : Packet) : ThorLabsInstrument :=
  { inst with written := inst.written ++ [pack packet] }

/-- readpacket(self, expect=None, timeout=None).  After the loop breaks,
resp holds the non-empty byte string of the final read — never Python None —
so the return-None and the IOError expected-packet-got-nothing branches
(modelled by retNone and ioErrGotNothing) are unreachable; the remaining
check raises IOError when an expectation is set and the decoded id differs
(reachable only via the one-shot break when timeout is None). -/
def readpacket (inst : ThorLabsInstrument) (reads : List TimedRead) (t_start : Rat)
    (expect : Option String) (timeout : PyTimeout) : RPOutcome × ThorLabsInstrument :=
  match readLoop expect timeout t_start reads inst.packet_queue with
  | (.broke pkt, q') =>
    (match expect with
     | none => .retPacket pkt
     | some e => if pkt.message_id = e then .retPacket pkt else .ioErrMismatch pkt.message_id e,
     { inst with packet_queue := q' })
  | (.timeoutRaised lastId, q') => (.timeoutErr lastId expect, { inst with packet_queue := q' })
  | (.typeErrRaised, q') => (.typeErr, { inst with packet_queue := q' })
  | (.fuelOut, q') => (.diverge, { inst with packet_queue := q' })

/-- querypacket(self, packet, expect=None, timeout=None):
self._file.write_raw(packet.pack()) followed by
self.readpacket(expect=expect, timeout=timeout), whose result is returned. -/
def querypacket (inst : ThorLabsInstrument) (packet : Packet) (reads : List TimedRead)
    (t_start : Rat) (expect : Option String) (timeout : PyTimeout) :
    RPOutcome × ThorLabsInstrument :=
  readpacket { inst with written := inst.written ++ [pack packet] } reads t_start expect timeout

/-- A read that cannot satisfy an expectation of id X: the empty sentinel, or
a frame whose message id differs from X. -/
def nonMatchb (X : String) (r : TimedRead) : Bool :=
  match r.res with
  | .empty => true
  | .frame pkt => pkt.message_id != X

/-- The (message id, packet) pairs of the frames in a list of reads, in
order, skipping empty reads. -/
def framesOf : List TimedRead → MsgQueue
  | [] => []
  | r :: rest =>
    match r.res with
    | .frame pkt => (pkt.message_id, pkt) :: framesOf rest
    | .empty => framesOf rest

end ThorLabs

namespace SerialManager

/-- The port argument of newSerialConnection: a Python str, or a value of
any other type. -/
inductive PortArg
  | pstr (s : String)
  | nonString
deriving DecidableEq

/-- Process-wide state of serialManager.py: the module-level registry
serialObjDict (an association list port ↦ handle), a fresh-handle counter
modelling the identity of serial.Serial objects, and the log of
serial.Serial constructor calls — each entry records one underlying serial
connection being opened, with the (port, baud, timeout, writeTimeout)
arguments it was given. -/
structure SMState where
  serialObjDict : List (String × Nat)
  nextHandle : Nat
  opens : List (String × Nat × Rat × Rat)
deriving DecidableEq

/-- Python dict lookup on the association-list model of serialObjDict. -/
def lookupDict : List (String × Nat) → String → Option Nat
  | [], _ => none
  | (k, v) :: rest, p => if k = p then some v else lookupDict rest p

/-- newSerialConnection(port, baud=460800, timeout=3, writeTimeout=3):
raises TypeError unless port is a str; opens a new serial.Serial and stores
it in serialObjDict only when the port has no entry yet; returns
serialObjDict[port].  (The Python default argument values are supplied by
callers here since the model passes all arguments explicitly.) -/
def newSerialConnection (st : SMState) (port : PortArg) (baud : Nat)
    (timeout writeTimeout : Rat) : Except String (SMState × Nat) :=
  match port with
  | .nonString => .error "Serial port must be specified as a string."
  | .pstr p =>
    match lookupDict st.serialObjDict p with
    | some h => .ok (st, h)
    | none =>
      .ok ({ serialObjDict := st.serialObjDict ++ [(p, st.nextHandle)],
             nextHandle := st.nextHandle + 1,
             opens := st.opens ++ [(p, baud, timeout, writeTimeout)] },
           st.nextHandle)

end SerialManager

namespace ThorLabs

/-- The queue of the instrument state returned by readpacket is exactly the
queue the loop ends with. -/
theorem readpacket_packet_queue (inst : ThorLabsInstrument) (reads : List TimedRead)
    (t_start : Rat) (expect : Option String) (timeout : PyTimeout) :
    (readpacket inst reads t_start expect timeout).2.packet_queue
      = (readLoop expect timeout t_start reads inst.packet_queue).2 := by
  rcases h : readLoop expect timeout t_start reads inst.packet_queue with ⟨ex, q'⟩
  cases ex <;> simp [readpacket, h]

/-- The loop only ever appends to the queue: the final queue extends the
initial one. -/
theorem readLoop_queue_extends (expect : Option String) (timeout : PyTimeout)
    (t_start : Rat) :
    ∀ (reads : List TimedRead) (q : MsgQueue),
      ∃ t, (readLoop expect timeout t_start reads q).2 = q ++ t := by
  intro reads
  induction reads with
  | nil => exact fun q => ⟨[], by simp [readLoop]⟩
  | cons r rest ih =>
    intro q
    rcases r with ⟨res, tic⟩
    cases res with
    | empty =>
      cases hdc : deadlineCheck timeout t_start tic with
      | goOn =>
        rcases ih q with ⟨t, ht⟩
        exact ⟨t, by simpa [readLoop, hdc] using ht⟩
      | raiseTimeout => exact ⟨[], by simp [readLoop, hdc]⟩
      | raiseTypeErr => exact ⟨[], by simp [readLoop, hdc]⟩
    | frame pkt =>
      by_cases hc : timeout = .pyNone ∨ expect = some pkt.message_id
      · exact ⟨[], by simp [readLoop, hc]⟩
      · cases hdc : deadlineCheck timeout t_start tic with
        | goOn =>
          rcases ih (q ++ [(pkt.message_id, pkt)]) with ⟨t, ht⟩
          exact ⟨(pkt.message_id, pkt) :: t, by simp [readLoop, hc, hdc, ht]⟩
        | raiseTimeout => exact ⟨[(pkt.message_id, pkt)], by simp [readLoop, hc, hdc]⟩
        | raiseTypeErr => exact ⟨[(pkt.message_id, pkt)], by simp [readLoop, hc, hdc]⟩

/-- With the disabled sentinel False the deadline check always passes. -/
theorem deadlineCheck_pyFalse (t_start tic : Rat) :
    deadlineCheck .pyFalse t_start tic = .goOn := by
  simp [deadlineCheck, pyEqFalse]

/-- With the disabled sentinel False the loop can only break on a packet or
run out of supplied reads: TimeoutError and TypeError are unreachable. -/
theorem readLoop_pyFalse_exits (expect : Option String) (t_start : Rat) :
    ∀ (reads : List TimedRead) (q : MsgQueue),
      (readLoop expect .pyFalse t_start reads q).1 = .fuelOut
        ∨ ∃ pkt, (readLoop expect .pyFalse t_start reads q).1 = .broke pkt := by
  intro reads
  induction reads with
  | nil => exact fun q => Or.inl (by simp [readLoop])
  | cons r rest ih =>
    intro q
    rcases r with ⟨res, tic⟩
    cases res with
    | empty =>
      simpa [readLoop, deadlineCheck_pyFalse] using ih q
    | frame pkt =>
      by_cases hc : expect = some pkt.message_id
      · exact Or.inr ⟨pkt, by simp [readLoop, hc]⟩
      · simpa [readLoop, hc, deadlineCheck_pyFalse] using ih (q ++ [(pkt.message_id, pkt)])

/-- A zero-second timeout drives the loop exactly as the disabled sentinel
does: zero is falsy (the conversion is skipped), zero is not None (the
one-shot break stays off), and 0 == False holds (the deadline is skipped). -/
theorem readLoop_zero_eq_pyFalse (expect : Option String) (t_start : Rat) :
    ∀ (reads : List TimedRead) (q : MsgQueue),
      readLoop expect (.secs 0) t_start reads q = readLoop expect .pyFalse t_start reads q := by
  intro reads
  induction reads with
  | nil => intro q; rfl
  | cons r rest ih =>
    intro q
    rcases r with ⟨res, tic⟩
    have h0 : deadlineCheck (.secs 0) t_start tic = .goOn := by
      simp [deadlineCheck, pyEqFalse]
    cases res with
    | empty => simp [readLoop, h0, deadlineCheck_pyFalse, ih q]
    | frame pkt =>
      by_cases hc : expect = some pkt.message_id
      · simp [readLoop, hc]
      · simp [readLoop, hc, h0, deadlineCheck_pyFalse, ih (q ++ [(pkt.message_id, pkt)])]

/-- On a channel that only ever yields the empty sentinel and a nonzero
numeric timeout, the loop raises TimeoutError with last id "empty" as soon
as a read completes past the deadline. -/
theorem readLoop_all_empty_timeout (expect : Option String) (t_start : Rat) (d : Rat)
    (hd : ¬ d = 0) :
    ∀ (reads : List TimedRead) (q : MsgQueue),
      (∀ r ∈ reads, r.res = ReadResult.empty) →
      (∃ r ∈ reads, r.tic - t_start > d) →
      readLoop expect (.secs d) t_start reads q = (.timeoutRaised "empty", q) := by
  intro reads
  induction reads with
  | nil => intro q _ hex; exact absurd hex (by simp)
  | cons r rest ih =>
    intro q hall hex
    rcases r with ⟨res, tic⟩
    have hres : res = ReadResult.empty := hall ⟨res, tic⟩ (List.mem_cons_self _ _)
    subst hres
    by_cases htic : tic - t_start > d
    · have hdc : deadlineCheck (.secs d) t_start tic = .raiseTimeout := by
        simp [deadlineCheck, pyEqFalse, hd, htic]
      simp [readLoop, hdc]
    · have hdc : deadlineCheck (.secs d) t_start tic = .goOn := by
        simp [deadlineCheck, pyEqFalse, hd, htic]
      have hex' : ∃ r ∈ rest, r.tic - t_start > d := by
        rcases hex with ⟨r', hr', hgt⟩
        rcases List.mem_cons.mp hr' with h | h
        · subst h; exact absurd hgt htic
        · exact ⟨r', h, hgt⟩
      have hall' : ∀ r ∈ rest, r.res = ReadResult.empty :=
        fun r hr => hall r (List.mem_cons_of_mem _ hr)
      simp [readLoop, hdc, ih q hall' hex']

end ThorLabs

namespace ThorLabs

/-- Unfolding of the non-match test on a frame read. -/
theorem nonMatchb_frame (X : String) (pkt : Packet) (tic : Rat)
    (h : nonMatchb X ⟨ReadResult.frame pkt, tic⟩ = true) : pkt.message_id ≠ X := by
  simpa [nonMatchb] using h

/-- On a channel that never yields a frame with the expected id, a nonzero
numeric timeout makes the loop raise TimeoutError as soon as a read
completes past the deadline; the recorded last id is either the empty-read
marker or the id of a non-matching frame. -/
theorem readLoop_nonmatch_timeout (X : String) (t_start : Rat) (d : Rat)
    (hd : ¬ d = 0) :
    ∀ (reads : List TimedRead) (q : MsgQueue),
      (∀ r ∈ reads, nonMatchb X r = true) →
      (∃ r ∈ reads, r.tic - t_start > d) →
      ∃ lastId, (readLoop (some X) (.secs d) t_start reads q).1 = .timeoutRaised lastId
        ∧ (lastId = "empty" ∨ lastId ≠ X) := by
  intro reads
  induction reads with
  | nil => intro q _ hex; exact absurd hex (by simp)
  | cons r rest ih =>
    intro q hall hex
    have hall' : ∀ r ∈ rest, nonMatchb X r = true :=
      fun r hr => hall r (List.mem_cons_of_mem _ hr)
    rcases r with ⟨res, tic⟩
    by_cases htic : tic - t_start > d
    · have hdc : deadlineCheck (.secs d) t_start tic = .raiseTimeout := by
        simp [deadlineCheck, pyEqFalse, hd, htic]
      cases res with
      | empty => exact ⟨"empty", by simp [readLoop, hdc], Or.inl rfl⟩
      | frame pkt =>
        have hmid : pkt.message_id ≠ X :=
          nonMatchb_frame X pkt tic (hall ⟨ReadResult.frame pkt, tic⟩ (List.mem_cons_self _ _))
        have hX : ¬ X = pkt.message_id := fun h => hmid h.symm
        exact ⟨pkt.message_id, by simp [readLoop, hX, hdc], Or.inr hmid⟩
    · have hdc : deadlineCheck (.secs d) t_start tic = .goOn := by
        simp [deadlineCheck, pyEqFalse, hd, htic]
      have hex' : ∃ r ∈ rest, r.tic - t_start > d := by
        rcases hex with ⟨r', hr', hgt⟩
        rcases List.mem_cons.mp hr' with h | h
        · subst h; exact absurd hgt htic
        · exact ⟨r', h, hgt⟩
      cases res with
      | empty => simpa [readLoop, hdc] using ih q hall' hex'
      | frame pkt =>
        have hmid : pkt.message_id ≠ X :=
          nonMatchb_frame X pkt tic (hall ⟨ReadResult.frame pkt, tic⟩ (List.mem_cons_self _ _))
        have hX : ¬ X = pkt.message_id := fun h => hmid h.symm
        simpa [readLoop, hX, hdc] using ih (q ++ [(pkt.message_id, pkt)]) hall' hex'

/-- With the disabled sentinel False, a matching frame preceded by any
finite run of empty or non-matching reads makes the loop break with exactly
that frame. -/
theorem readLoop_pyFalse_success (X : String) (t_start : Rat) (pkt : Packet)
    (hpkt : pkt.message_id = X) (tic : Rat) :
    ∀ (pre : List TimedRead) (q : MsgQueue),
      (∀ r ∈ pre, nonMatchb X r = true) →
      ∃ q', readLoop (some X) .pyFalse t_start (pre ++ [⟨.frame pkt, tic⟩]) q
        = (.broke pkt, q') := by
  intro pre
  induction pre with
  | nil =>
    intro q _
    exact ⟨q, by simp [readLoop, hpkt]⟩
  | cons r rest ih =>
    intro q hall
    have hall' : ∀ r ∈ rest, nonMatchb X r = true :=
      fun r hr => hall r (List.mem_cons_of_mem _ hr)
    rcases r with ⟨res, tic'⟩
    cases res with
    | empty =>
      rcases ih q hall' with ⟨q', hq'⟩
      exact ⟨q', by simp [readLoop, deadlineCheck_pyFalse, hq']⟩
    | frame p =>
      have hmid : p.message_id ≠ X :=
        nonMatchb_frame X p tic' (hall ⟨ReadResult.frame p, tic'⟩ (List.mem_cons_self _ _))
      have hX : ¬ X = p.message_id := fun h => hmid h.symm
      rcases ih (q ++ [(p.message_id, p)]) hall' with ⟨q', hq'⟩
      exact ⟨q', by simp [readLoop, hX, deadlineCheck_pyFalse, hq']⟩

/-- With expect unset and the disabled sentinel False, no loop exit is
reachable: every frame is queued under its own id and every empty read
passes the disabled deadline check. -/
theorem readLoop_none_pyFalse (t_start : Rat) :
    ∀ (reads : List TimedRead) (q : MsgQueue),
      readLoop none .pyFalse t_start reads q = (.fuelOut, q ++ framesOf reads) := by
  intro reads
  induction reads with
  | nil => intro q; simp [readLoop, framesOf]
  | cons r rest ih =>
    intro q
    rcases r with ⟨res, tic⟩
    cases res with
    | empty => simp [readLoop, deadlineCheck_pyFalse, framesOf, ih q]
    | frame pkt =>
      simp [readLoop, deadlineCheck_pyFalse, framesOf, ih (q ++ [(pkt.message_id, pkt)])]

end ThorLabs

namespace ThorLabs

/-- A readpacket call with the disabled timeout sentinel can never raise
TimeoutError, whatever the reads are. -/
theorem readpacket_pyFalse_no_timeout (inst : ThorLabsInstrument) (reads : List TimedRead)
    (t_start : Rat) (expect : Option String) (lastId : String) (e : Option String) :
    (readpacket inst reads t_start expect .pyFalse).1 ≠ .timeoutErr lastId e := by
  rcases hq : readLoop expect .pyFalse t_start reads inst.packet_queue with ⟨ex, q'⟩
  have hex := readLoop_pyFalse_exits expect t_start reads inst.packet_queue
  rw [hq] at hex
  rcases hex with h | ⟨pkt, h⟩
  · have hfo : ex = .fuelOut := h
    subst hfo
    simp [readpacket, hq]
  · have hbr : ex = .broke pkt := h
    subst hbr
    rcases expect with _ | X
    · simp [readpacket, hq]
    · by_cases hid : pkt.message_id = X
      · simp [readpacket, hq, hid]
      · simp [readpacket, hq, hid]

/-- Packet with message id A used in the concrete-input theorems. -/
def pktA : Packet := ⟨"A", 0, 0, 80, 1, none⟩

/-- Packet with message id X used in the concrete-input theorems. -/
def pktX : Packet := ⟨"X", 0, 0, 80, 1, none⟩

/-- Claim C1 (one-shot receive).  With expect=None and timeout=None the call
does return the first frame decoded from a non-empty read regardless of its
message id; but on immediate end-of-stream (read_raw yields the empty
sentinel) the call does not return the no-packet sentinel None: the deadline
guard is entered (None == False is False in Python) and comparing
tic - t_start with None raises TypeError.  First conjunct: the failing
input.  Second conjunct: the one-shot return path. -/
theorem c1_oneshot_receive :
    readpacket ⟨[], []⟩ [⟨.empty, 1⟩] 0 none .pyNone = (.typeErr, ⟨[], []⟩)
    ∧ ∀ (inst : ThorLabsInstrument) (pkt : Packet) (tic : Rat)
        (rest : List TimedRead) (t_start : Rat),
        readpacket inst (⟨.frame pkt, tic⟩ :: rest) t_start none .pyNone
          = (.retPacket pkt, inst) := by
  constructor
  · rfl
  · intro inst pkt tic rest t_start
    simp [readpacket, readLoop]

/-- Claim C2, counterexample.  On a channel that reports end-of-stream
immediately (only empty reads), readpacket with expect set and a one-second
timeout fails with TimeoutError once the deadline passes — not with the
IOError expected-packet-got-nothing (the ProtocolError of the spec). -/
theorem c2_counterexample :
    readpacket ⟨[], []⟩ [⟨.empty, 10⟩] 0 (some "X") (.secs 1)
      = (.timeoutErr "empty" (some "X"), ⟨[], []⟩)
    ∧ RPOutcome.timeoutErr "empty" (some "X") ≠ .ioErrGotNothing "X" := by
  exact ⟨by with_unfolding_all rfl, by decide⟩

/-- Claim C2 as amended.  With expect set and a positive numeric timeout, a
channel that only ever yields the empty sentinel makes readpacket fail with
TimeoutError (last-seen id "empty", expected id X) as soon as a read
completes past the deadline; the got-nothing IOError branch is unreachable
because the end-of-stream sentinel is the empty byte string, never None. -/
theorem c2_eos_finite_timeout (X : String) (inst : ThorLabsInstrument)
    (t_start d : Rat) (reads : List TimedRead)
    (hd : 0 < d)
    (hempty : ∀ r ∈ reads, r.res = ReadResult.empty)
    (hexceed : ∃ r ∈ reads, r.tic - t_start > d) :
    readpacket inst reads t_start (some X) (.secs d)
      = (.timeoutErr "empty" (some X), inst) := by
  have h := readLoop_all_empty_timeout (some X) t_start d (ne_of_gt hd) reads
    inst.packet_queue hempty hexceed
  simp [readpacket, h]

/-- Claim C2, witness for the amended theorem. -/
theorem c2_witness :
    readpacket ⟨[], []⟩ [⟨.empty, 10⟩] 0 (some "X") (.secs 1)
      = (.timeoutErr "empty" (some "X"), ⟨[], []⟩) :=
  c2_eos_finite_timeout "X" ⟨[], []⟩ 0 1 [⟨.empty, 10⟩] (by norm_num)
    (by simp) ⟨⟨.empty, 10⟩, by simp, by norm_num⟩

/-- Claim C3, counterexample.  With expect set and timeout=None, the very
first decoded packet breaks the loop whatever its id (the one-shot branch
tests timeout is None first), so a mismatched packet is dropped — the call
raises the mismatch IOError and the pending-message queue stays empty — in
contradiction with the claim that every mismatched packet is queued in every
timeout mode including timeout=None. -/
theorem c3_counterexample :
    readpacket ⟨[], []⟩ [⟨.frame pktA, 1⟩] 0 (some "B") .pyNone
      = (.ioErrMismatch "A" "B", ⟨[], []⟩)
    ∧ (readpacket ⟨[], []⟩ [⟨.frame pktA, 1⟩] 0 (some "B") .pyNone).2.packet_queue = [] := by
  exact ⟨rfl, rfl⟩

/-- Claim C3 as amended.  In every timeout mode other than None (the
disabled sentinel False or a numeric duration), a decoded packet whose
message id differs from the expected one is appended to the pending-message
queue under its own id before the call continues looping or ends: the queue
after the call extends the original queue with that entry first. -/
theorem c3_mismatch_queued (X : String) (inst : ThorLabsInstrument) (t_start tic : Rat)
    (timeout : PyTimeout) (pkt : Packet) (rest : List TimedRead)
    (hto : timeout ≠ .pyNone) (hmm : pkt.message_id ≠ X) :
    ∃ tail, (readpacket inst (⟨.frame pkt, tic⟩ :: rest) t_start (some X) timeout).2.packet_queue
      = inst.packet_queue ++ (pkt.message_id, pkt) :: tail := by
  rw [readpacket_packet_queue]
  have hX : ¬ X = pkt.message_id := fun h => hmm h.symm
  cases hdc : deadlineCheck timeout t_start tic with
  | goOn =>
    rcases readLoop_queue_extends (some X) timeout t_start rest
      (inst.packet_queue ++ [(pkt.message_id, pkt)]) with ⟨t, ht⟩
    exact ⟨t, by simp [readLoop, hto, hX, hdc, ht]⟩
  | raiseTimeout => exact ⟨[], by simp [readLoop, hto, hX, hdc]⟩
  | raiseTypeErr => exact ⟨[], by simp [readLoop, hto, hX, hdc]⟩

/-- Claim C3, witness for the amended theorem. -/
theorem c3_witness :
    ∃ tail, (readpacket ⟨[], []⟩ [⟨.frame pktA, 1⟩] 0 (some "B") (.secs 50)).2.packet_queue
      = ([] : MsgQueue) ++ ("A", pktA) :: tail :=
  c3_mismatch_queued "B" ⟨[], []⟩ 0 1 (.secs 50) pktA [] (by decide) (by decide)

/-- Claim C4, counterexample.  A frame whose id matches expect is returned
even when it is decoded only after the deadline has long passed (the
matching break runs before any deadline check): with a one-second timeout
and a single matching read completing at the 100 second mark the call
returns the packet instead of raising TimeoutError, although no matching
frame was decoded before the deadline. -/
theorem c4_counterexample :
    readpacket ⟨[], []⟩ [⟨.frame pktX, 100⟩] 0 (some "X") (.secs 1)
      = (.retPacket pktX, ⟨[], []⟩)
    ∧ (100 : Rat) - 0 > 1 := by
  exact ⟨by with_unfolding_all rfl, by norm_num⟩

/-- Claim C4 as amended.  With expect=X and a positive numeric timeout, if
every read is non-matching (empty or a frame with a different id) and some
read completes past the deadline, the call raises TimeoutError — it cannot
run beyond the supplied reads — and the error reports the expected id X
together with the last-seen id, which is the empty marker or the id of a
non-matching packet; a matching frame, by contrast, is returned whenever it
is decoded, even past the deadline. -/
theorem c4_timeout_expiry (X : String) (inst : ThorLabsInstrument) (t_start d : Rat)
    (reads : List TimedRead)
    (hd : 0 < d)
    (hnm : ∀ r ∈ reads, nonMatchb X r = true)
    (hexceed : ∃ r ∈ reads, r.tic - t_start > d) :
    ∃ lastId, (readpacket inst reads t_start (some X) (.secs d)).1
        = .timeoutErr lastId (some X)
      ∧ (lastId = "empty" ∨ lastId ≠ X) := by
  rcases readLoop_nonmatch_timeout X t_start d (ne_of_gt hd) reads inst.packet_queue
    hnm hexceed with ⟨lastId, hl, hdisj⟩
  refine ⟨lastId, ?_, hdisj⟩
  rcases hq : readLoop (some X) (.secs d) t_start reads inst.packet_queue with ⟨ex, q'⟩
  rw [hq] at hl
  have hex : ex = .timeoutRaised lastId := hl
  subst hex
  simp [readpacket, hq]

/-- Claim C4, witness for the amended theorem. -/
theorem c4_witness :
    ∃ lastId, (readpacket ⟨[], []⟩ [⟨.frame pktA, 10⟩] 0 (some "X") (.secs 1)).1
        = .timeoutErr lastId (some "X")
      ∧ (lastId = "empty" ∨ lastId ≠ "X") :=
  c4_timeout_expiry "X" ⟨[], []⟩ 0 1 [⟨.frame pktA, 10⟩] (by norm_num)
    (by simp [nonMatchb, pktA]) ⟨⟨.frame pktA, 10⟩, by simp, by norm_num⟩

/-- Claim C5 (indefinite wait).  With expect=X and the disabled timeout
sentinel False, readpacket never raises TimeoutError — whatever reads occur
and however large their clock values — and when a frame with message id X
arrives after any finite run of empty or non-matching reads, that frame is
returned. -/
theorem c5_indefinite_wait (X : String) (inst : ThorLabsInstrument) (t_start : Rat)
    (pre : List TimedRead) (pkt : Packet) (tic : Rat)
    (hpre : ∀ r ∈ pre, nonMatchb X r = true) (hpkt : pkt.message_id = X) :
    (∀ (reads : List TimedRead) (lastId : String) (e : Option String),
        (readpacket inst reads t_start (some X) .pyFalse).1 ≠ .timeoutErr lastId e)
    ∧ (readpacket inst (pre ++ [⟨.frame pkt, tic⟩]) t_start (some X) .pyFalse).1
        = .retPacket pkt := by
  constructor
  · exact fun reads lastId e => readpacket_pyFalse_no_timeout inst reads t_start (some X) lastId e
  · rcases readLoop_pyFalse_success X t_start pkt hpkt tic pre inst.packet_queue hpre
      with ⟨q', hq'⟩
    simp [readpacket, hq', hpkt]

/-- Claim C5, witness: the non-matching run takes the clock far past any
ordinary deadline (the last pre-read completes at the 2000000 second mark),
yet no TimeoutError occurs and the matching frame is returned. -/
theorem c5_witness :
    (∀ (reads : List TimedRead) (lastId : String) (e : Option String),
        (readpacket ⟨[], []⟩ reads 0 (some "X") .pyFalse).1 ≠ .timeoutErr lastId e)
    ∧ (readpacket ⟨[], []⟩ ([⟨.empty, 5⟩, ⟨.frame pktA, 2000000⟩] ++ [⟨.frame pktX, 3000000⟩])
          0 (some "X") .pyFalse).1
        = .retPacket pktX :=
  c5_indefinite_wait "X" ⟨[], []⟩ 0 [⟨.empty, 5⟩, ⟨.frame pktA, 2000000⟩] pktX 3000000
    (by simp [nonMatchb, pktA]) (by decide)

/-- Claim C6 (filtered receive success).  A decodable non-matching frame A
followed by a decodable matching frame B, with A's read completing within a
positive deadline: readpacket returns B, the pending-message queue gains the
entry (A's id, A), and a queue lookup for A's id afterwards finds A. -/
theorem c6_filtered_receive (X : String) (inst : ThorLabsInstrument)
    (t_start d ticA ticB : Rat) (A B : Packet)
    (hA : A.message_id ≠ X) (hB : B.message_id = X)
    (hd : 0 < d) (hticA : ticA - t_start ≤ d) :
    readpacket inst [⟨.frame A, ticA⟩, ⟨.frame B, ticB⟩] t_start (some X) (.secs d)
      = (.retPacket B, { inst with packet_queue := inst.packet_queue ++ [(A.message_id, A)] })
    ∧ queueLookup (readpacket inst [⟨.frame A, ticA⟩, ⟨.frame B, ticB⟩] t_start
          (some X) (.secs d)).2.packet_queue A.message_id
      = queueLookup inst.packet_queue A.message_id ++ [A] := by
  have hXA : ¬ X = A.message_id := fun h => hA h.symm
  have hd0 : ¬ d = 0 := ne_of_gt hd
  have hnotgt : ¬ ticA - t_start > d := not_lt.mpr hticA
  have hdc : deadlineCheck (.secs d) t_start ticA = .goOn := by
    simp [deadlineCheck, pyEqFalse, hd0, hnotgt]
  have hloop : readLoop (some X) (.secs d) t_start [⟨.frame A, ticA⟩, ⟨.frame B, ticB⟩]
      inst.packet_queue = (.broke B, inst.packet_queue ++ [(A.message_id, A)]) := by
    simp [readLoop, hXA, hdc, hB]
  have hmain : readpacket inst [⟨.frame A, ticA⟩, ⟨.frame B, ticB⟩] t_start (some X) (.secs d)
      = (.retPacket B, { inst with packet_queue := inst.packet_queue ++ [(A.message_id, A)] }) := by
    simp [readpacket, hloop, hB]
  refine ⟨hmain, ?_⟩
  rw [hmain]
  simp [queueLookup]

/-- Claim C6, witness. -/
theorem c6_witness :
    readpacket ⟨[], []⟩ [⟨.frame pktA, 1⟩, ⟨.frame pktX, 2⟩] 0 (some "X") (.secs 100)
      = (.retPacket pktX, { written := [], packet_queue := ([] : MsgQueue) ++ [(pktA.message_id, pktA)] })
    ∧ queueLookup (readpacket ⟨[], []⟩ [⟨.frame pktA, 1⟩, ⟨.frame pktX, 2⟩] 0
          (some "X") (.secs 100)).2.packet_queue pktA.message_id
      = queueLookup ([] : MsgQueue) pktA.message_id ++ [pktA] :=
  c6_filtered_receive "X" ⟨[], []⟩ 0 100 1 2 pktA pktX (by decide) (by decide)
    (by norm_num) (by norm_num)

/-- Claim C7 (query is exactly send-then-receive).  For every packet,
expectation, timeout, channel behaviour and start time, querypacket is the
composition of sendpacket followed by readpacket: same bytes written, same
outcome or raised error, same final instrument state. -/
theorem c7_query_is_send_then_read (inst : ThorLabsInstrument) (packet : Packet)
    (reads : List TimedRead) (t_start : Rat) (expect : Option String)
    (timeout : PyTimeout) :
    querypacket inst packet reads t_start expect timeout
      = readpacket (sendpacket inst packet) reads t_start expect timeout := rfl

/-- Claim C9 (zero timeout means no deadline).  A zero timeout is falsy (the
unit-conversion branch is skipped) and 0 == False holds, so the deadline
guard is never entered: readpacket with timeout=0 behaves exactly as with
the disabled sentinel False — id-filtering still applies because 0 is not
None — and in particular TimeoutError is never raised. -/
theorem c9_zero_timeout_no_deadline (inst : ThorLabsInstrument) (reads : List TimedRead)
    (t_start : Rat) (expect : Option String) :
    readpacket inst reads t_start expect (.secs 0)
      = readpacket inst reads t_start expect .pyFalse
    ∧ ∀ (lastId : String) (e : Option String),
        (readpacket inst reads t_start expect (.secs 0)).1 ≠ .timeoutErr lastId e := by
  have heq : readpacket inst reads t_start expect (.secs 0)
      = readpacket inst reads t_start expect .pyFalse := by
    simp [readpacket, readLoop_zero_eq_pyFalse]
  refine ⟨heq, ?_⟩
  rw [heq]
  exact fun lastId e => readpacket_pyFalse_no_timeout inst reads t_start expect lastId e

/-- Claim C10 (unfiltered indefinite receive never terminates).  With
expect=None and timeout=False no loop exit is reachable: the success break
needs timeout None or a decoded id equal to expect (None matches no id),
empty reads skip the deadline because timeout == False, so the call is still
looping after consuming any number of reads, and every decoded frame has
been appended to the pending-message queue under its own id. -/
theorem c10_unfiltered_indefinite_diverges (inst : ThorLabsInstrument)
    (reads : List TimedRead) (t_start : Rat) :
    readpacket inst reads t_start none .pyFalse
      = (.diverge, { inst with packet_queue := inst.packet_queue ++ framesOf reads }) := by
  simp [readpacket, readLoop_none_pyFalse]

end ThorLabs

namespace SerialManager

/-- Appending a fresh entry for an absent port makes the lookup find it. -/
theorem lookupDict_append (p : String) (h : Nat) :
    ∀ d : List (String × Nat), lookupDict d p = none →
      lookupDict (d ++ [(p, h)]) p = some h := by
  intro d
  induction d with
  | nil => intro _; simp [lookupDict]
  | cons e rest ih =>
    rcases e with ⟨k, v⟩
    intro hnone
    by_cases hk : k = p
    · simp [lookupDict, hk] at hnone
    · simp only [List.cons_append, lookupDict, hk, if_false] at hnone ⊢
      exact ih hnone

/-- Claim C8 (channel-registry singleton).  Whatever handle the first
newSerialConnection call for a port produced, every later call with that
port — whatever its baud, timeout and writeTimeout arguments — returns the
same handle and leaves the whole state untouched: no second serial.Serial
constructor call is logged, and the registry keeps at most one handle per
port. -/
theorem c8_singleton (st st1 : SMState) (p : String) (hdl : Nat)
    (b1 b2 : Nat) (t1 w1 t2 w2 : Rat)
    (h : newSerialConnection st (.pstr p) b1 t1 w1 = .ok (st1, hdl)) :
    newSerialConnection st1 (.pstr p) b2 t2 w2 = .ok (st1, hdl) := by
  cases hl : lookupDict st.serialObjDict p with
  | some h0 =>
    simp [newSerialConnection, hl] at h
    rcases h with ⟨hst, hh⟩
    subst hst
    subst hh
    simp [newSerialConnection, hl]
  | none =>
    simp [newSerialConnection, hl] at h
    rcases h with ⟨hst, hh⟩
    subst hst
    subst hh
    have hfound : lookupDict (st.serialObjDict ++ [(p, st.nextHandle)]) p
        = some st.nextHandle := lookupDict_append p st.nextHandle st.serialObjDict hl
    simp [newSerialConnection, hfound]

/-- Claim C8, witness: the registry already maps COM1 to handle 0 after a
first call with the default arguments; a second call with different baud and
timeouts returns the same handle and opens nothing new. -/
theorem c8_witness :
    newSerialConnection ⟨[("COM1", 0)], 1, [("COM1", 460800, 3, 3)]⟩ (.pstr "COM1") 9600 5 7
      = .ok (⟨[("COM1", 0)], 1, [("COM1", 460800, 3, 3)]⟩, 0) :=
  c8_singleton ⟨[], 0, []⟩ ⟨[("COM1", 0)], 1, [("COM1", 460800, 3, 3)]⟩ "COM1" 0
    460800 9600 3 3 5 7 (by with_unfolding_all rfl)

end SerialManager
